import Mathlib

/-!
# EasyWeather: verification of the zone-grid / gradient-interpolation core

Shallow embedding of the temperature-to-color gradient interpolation, the
zone-grid generation, the centroid helper, and the batch temperature refresh
of the dynamic-geofencing screen, together with the 4-bucket color helper of
the San José screen.  Temperatures, coordinates and color channels are
modelled as rationals (`ℚ`); JavaScript `Math.round` is modelled as
`⌊x + 1/2⌋` (round half toward positive infinity), and the `rgba(...)`
result strings are modelled by their numeric components.
-/

-- Restore default reducibility for the rational-number operations so that
-- concrete values of the embedded functions can be computed by `decide`.
attribute [local semireducible] Rat.mul Rat.add Rat.sub Rat.inv Rat.ofScientific

namespace EasyWeather

/-- A latitude/longitude pair (source interface `Coordinate`). -/
structure Coordinate where
  latitude : ℚ
  longitude : ℚ
  deriving DecidableEq, Repr

/-- A rectangular map zone (source interface `Zone`): an identifier, the four
corner coordinates, and an optional temperature (`null` modelled as `none`). -/
structure Zone where
  id : String
  coordinates : List Coordinate
  temperature : Option ℚ
  deriving DecidableEq, Repr

/-- A gradient control point (source interface `GradientStop`): a temperature
breakpoint and an RGB triple. -/
structure GradientStop where
  temp : ℚ
  color : ℚ × ℚ × ℚ
  deriving DecidableEq, Repr

instance : Inhabited GradientStop := ⟨⟨0, (0, 0, 0)⟩⟩

/-- The numeric content of an `rgba(r, g, b, a)` CSS color string. -/
structure RGBA where
  r : ℚ
  g : ℚ
  b : ℚ
  a : ℚ
  deriving DecidableEq, Repr

/-- JavaScript `Math.round`: round half toward positive infinity. -/
def jsRound (x : ℚ) : ℤ := ⌊x + 1 / 2⌋

/-- Source `rgbaFromColor`: wrap an RGB triple with the alpha used at every
call site (the source's default argument `alpha = 0.5`). -/
def rgbaFromColor (color : ℚ × ℚ × ℚ) : RGBA :=
  ⟨color.1, color.2.1, color.2.2, 1 / 2⟩

/-- The value `v` lies between `x` and `y` (in either order). -/
def channelBetween (x y v : ℚ) : Prop := min x y ≤ v ∧ v ≤ max x y

namespace DynamicGeofencing

/-- Grid parameter `numberOfRows = 8`. -/
def numberOfRows : ℕ := 8

/-- Grid parameter `numberOfColumns = 6`. -/
def numberOfColumns : ℕ := 6

/-- Grid parameter `latStep = 0.08` degrees. -/
def latStep : ℚ := 0.08

/-- Grid parameter `lonStep = 0.10` degrees. -/
def lonStep : ℚ := 0.10

/-- The gradient table of the dynamic-geofencing screen, verbatim. -/
def gradient : List GradientStop :=
  [⟨-10, (0, 0, 139)⟩,
   ⟨-7.5, (0, 0, 205)⟩,
   ⟨-5, (0, 0, 255)⟩,
   ⟨-2.5, (173, 216, 230)⟩,
   ⟨0, (240, 248, 255)⟩,
   ⟨2.5, (255, 255, 224)⟩,
   ⟨5, (255, 255, 153)⟩,
   ⟨7.5, (255, 255, 0)⟩,
   ⟨10, (255, 255, 0)⟩,
   ⟨12.5, (204, 204, 0)⟩,
   ⟨15, (255, 165, 100)⟩,
   ⟨17.5, (255, 140, 0)⟩,
   ⟨20, (255, 120, 0)⟩,
   ⟨25, (255, 80, 80)⟩,
   ⟨28, (255, 0, 0)⟩,
   ⟨32, (139, 0, 0)⟩,
   ⟨35, (100, 0, 0)⟩]

/-- The loop body of `getTemperatureColor`: linear interpolation between the
stops `start` and `end` enclosing `temp`. -/
def interpStop (s e : GradientStop) (t : ℚ) : ℚ × ℚ × ℚ :=
  let factor := (t - s.temp) / (e.temp - s.temp)
  ((jsRound (s.color.1 + factor * (e.color.1 - s.color.1)) : ℚ),
   (jsRound (s.color.2.1 + factor * (e.color.2.1 - s.color.2.1)) : ℚ),
   (jsRound (s.color.2.2 + factor * (e.color.2.2 - s.color.2.2)) : ℚ))

/-- The `for` loop of `getTemperatureColor`: scan adjacent pairs of stops in
order and return the interpolation for the first pair enclosing `t`;
`none` when the loop falls through. -/
def findColor : List GradientStop → ℚ → Option (ℚ × ℚ × ℚ)
  | s :: e :: rest, t =>
    if s.temp ≤ t ∧ t ≤ e.temp then some (interpStop s e t)
    else findColor (e :: rest) t
  | _, _ => none

/-- Source `getTemperatureColor`, parameterized by the gradient table it
reads (the source reads the module-level `gradient`). -/
def getTemperatureColorWith (table : List GradientStop) (temp : Option ℚ) : RGBA :=
  match temp with
  | none => ⟨128, 128, 128, 0.3⟩
  | some t =>
    if t ≤ table.headI.temp then rgbaFromColor table.headI.color
    else if table.getLastI.temp ≤ t then rgbaFromColor table.getLastI.color
    else
      match findColor table t with
      | some c => rgbaFromColor c
      | none => ⟨128, 128, 128, 0.3⟩

/-- Source `getTemperatureColor` applied to the module-level `gradient`. -/
def getTemperatureColor (temp : Option ℚ) : RGBA :=
  getTemperatureColorWith gradient temp

/-- The `i`-th gradient stop (out-of-range indices give the default stop). -/
def stop (i : ℕ) : GradientStop := gradient.getD i default

/-- Source `generateZones`: the nested `for` loops over rows (outer) and
columns (inner); `zoneCount` is incremented once per inner iteration, so at
iteration `(row, col)` it equals `row * numberOfColumns + col + 1`. -/
def generateZones (latStart lonStart : ℚ) : List Zone :=
  (List.range numberOfRows).flatMap fun row =>
    (List.range numberOfColumns).map fun col =>
      let zoneCount := row * numberOfColumns + col + 1
      let latMin := latStart + (row : ℚ) * latStep
      let latMax := latStart + ((row : ℚ) + 1) * latStep
      let lonMin := lonStart + (col : ℚ) * lonStep
      let lonMax := lonStart + ((col : ℚ) + 1) * lonStep
      { id := "zone" ++ toString zoneCount,
        coordinates :=
          [⟨latMin, lonMin⟩, ⟨latMin, lonMax⟩, ⟨latMax, lonMax⟩, ⟨latMax, lonMin⟩],
        temperature := none }

/-- The zone that `generateZones` places at flat index `k` (row-major:
`row = k / numberOfColumns`, `col = k % numberOfColumns`). -/
def zoneAt (latStart lonStart : ℚ) (k : ℕ) : Zone :=
  let row := k / numberOfColumns
  let col := k % numberOfColumns
  let latMin := latStart + (row : ℚ) * latStep
  let latMax := latStart + ((row : ℚ) + 1) * latStep
  let lonMin := lonStart + (col : ℚ) * lonStep
  let lonMax := lonStart + ((col : ℚ) + 1) * lonStep
  { id := "zone" ++ toString (k + 1),
    coordinates :=
      [⟨latMin, lonMin⟩, ⟨latMin, lonMax⟩, ⟨latMax, lonMax⟩, ⟨latMax, lonMin⟩],
    temperature := none }

/-- Source `computeCentroid`: `reduce` (a left fold from the zero
accumulator) summing latitudes and longitudes, divided by the length. -/
def computeCentroid (coordinates : List Coordinate) : Coordinate :=
  let total := coordinates.foldl
    (fun (acc : Coordinate) (cur : Coordinate) =>
      ⟨acc.latitude + cur.latitude, acc.longitude + cur.longitude⟩)
    (⟨0, 0⟩ : Coordinate)
  ⟨total.latitude / (coordinates.length : ℚ),
   total.longitude / (coordinates.length : ℚ)⟩

/-- The React state of the `DynamicGeofencing` component that
`fetchZoneTemperatures` touches: the published `zones`, the `loading` flag
and the `error` message. -/
structure ComponentState where
  zones : List Zone
  loading : Bool
  error : Option String
  deriving DecidableEq, Repr

/-- `Promise.all` over the per-zone fetch promises: succeeds with the list of
updated zones when every fetch succeeds, and rejects with a fetch's error as
soon as any fetch fails. -/
def collectZones (f : Zone → Except String Zone) : List Zone → Except String (List Zone)
  | [] => Except.ok []
  | z :: rest =>
    match f z with
    | Except.error e => Except.error e
    | Except.ok z2 =>
      match collectZones f rest with
      | Except.error e => Except.error e
      | Except.ok zs => Except.ok (z2 :: zs)

/-- Source `fetchZoneTemperatures` as a state transformer.  The per-zone
fetch (`fetchTemperatureForZone` at the zone's centroid) is modelled by the
oracle `fetch : Coordinate → Except String ℚ`.  On success the updated zone
list replaces `state.zones` (`setZones`); on any failure the `catch` block
records the message (`setError`) and `zones` is untouched; `finally` clears
`loading` on both paths. -/
def fetchZoneTemperatures (fetch : Coordinate → Except String ℚ)
    (zonesToUpdate : List Zone) (state : ComponentState) : ComponentState :=
  match collectZones
      (fun zone =>
        (fetch (computeCentroid zone.coordinates)).map
          fun temp => { zone with temperature := some temp })
      zonesToUpdate with
  | Except.ok updatedZones => { state with zones := updatedZones, loading := false }
  | Except.error e => { state with error := some e, loading := false }

end DynamicGeofencing

namespace SanJose

/-- Source `getTemperatureColor` of the San José screen: a linear 4-bucket
classifier with alpha 0.3 on every branch. -/
def getTemperatureColor (temp : Option ℚ) : RGBA :=
  match temp with
  | none => ⟨128, 128, 128, 0.3⟩
  | some t =>
    if t < 5 then ⟨0, 0, 255, 0.3⟩
    else if t < 12 then ⟨0, 255, 0, 0.3⟩
    else if t < 13 then ⟨255, 165, 0, 0.3⟩
    else ⟨255, 0, 0, 0.3⟩

end SanJose

namespace DynamicGeofencing

/-- On any list of stops with strictly increasing temperatures, the scan loop
returns the interpolation for the adjacent pair at index `i` whenever
`t` lies in `(stops[i].temp, stops[i+1].temp]`. -/
lemma findColor_pairwise :
    ∀ (l : List GradientStop),
      l.Pairwise (fun x y => x.temp < y.temp) →
      ∀ (i : ℕ) (hi : i + 1 < l.length) (t : ℚ),
        (l.get ⟨i, Nat.lt_of_succ_lt hi⟩).temp < t →
        t ≤ (l.get ⟨i + 1, hi⟩).temp →
        findColor l t =
          some (interpStop (l.get ⟨i, Nat.lt_of_succ_lt hi⟩) (l.get ⟨i + 1, hi⟩) t)
  | [], _, i, hi, t, _, _ => by simp at hi
  | [s], _, i, hi, t, _, _ => by simp at hi
  | s :: e :: rest, hp, 0, hi, t, h1, h2 => by
      have hc : s.temp ≤ t ∧ t ≤ e.temp := ⟨le_of_lt h1, h2⟩
      simp [findColor, hc]
  | s :: e :: rest, hp, j + 1, hi, t, h1, h2 => by
      have hp' : (e :: rest).Pairwise (fun x y => x.temp < y.temp) := hp.of_cons
      have hj : j + 1 < (e :: rest).length := by simpa using hi
      have hje : e.temp ≤ ((e :: rest).get ⟨j, Nat.lt_of_succ_lt hj⟩).temp := by
        cases j with
        | zero => simp
        | succ m =>
          exact le_of_lt ((List.pairwise_cons.mp hp').1 _
            (List.get_mem rest m (by simpa using Nat.lt_of_succ_lt hj)))
      have h1' : ((e :: rest).get ⟨j, Nat.lt_of_succ_lt hj⟩).temp < t := by
        simpa using h1
      have h2' : t ≤ ((e :: rest).get ⟨j + 1, hj⟩).temp := by simpa using h2
      have hnot : ¬(s.temp ≤ t ∧ t ≤ e.temp) := by
        rintro ⟨-, hte⟩
        exact absurd (lt_of_le_of_lt hje h1') (not_lt.mpr hte)
      rw [findColor, if_neg hnot]
      simpa using findColor_pairwise (e :: rest) hp' j hj t h1' h2'

/-- The gradient table's temperatures are strictly increasing. -/
lemma gradient_pairwise : gradient.Pairwise (fun x y => x.temp < y.temp) := by decide

/-- In-range `stop` indices agree with `List.get`. -/
lemma stop_eq_get (i : ℕ) (h : i < gradient.length) : stop i = gradient.get ⟨i, h⟩ := by
  simp [stop, List.getD_eq_getElem?_getD, List.getElem?_eq_getElem h, List.get_eq_getElem]

/-- Specialization of the scan lemma to the program's gradient table. -/
lemma findColor_gradient (i : ℕ) (hi : i + 1 < gradient.length) (t : ℚ)
    (h1 : (stop i).temp < t) (h2 : t ≤ (stop (i + 1)).temp) :
    findColor gradient t = some (interpStop (stop i) (stop (i + 1)) t) := by
  rw [stop_eq_get i (Nat.lt_of_succ_lt hi), stop_eq_get (i + 1) hi] at *
  exact findColor_pairwise gradient gradient_pairwise i hi t h1 h2

/-- For a temperature in `(stops[i].temp, stops[i+1].temp]` (and below the top
clamp), `getTemperatureColor` returns the interpolation on pair `i`. -/
lemma getTemperatureColor_interior (i : ℕ) (hi : i + 1 < gradient.length) (t : ℚ)
    (h1 : (stop i).temp < t) (h2 : t ≤ (stop (i + 1)).temp) (h3 : t < 35) :
    getTemperatureColor (some t) = rgbaFromColor (interpStop (stop i) (stop (i + 1)) t) := by
  have hlow : ∀ j, j < 17 → (-10 : ℚ) ≤ (stop j).temp := by decide
  have hhead : gradient.headI.temp = -10 := by decide
  have hlast : gradient.getLastI.temp = 35 := by decide
  have hno1 : ¬ t ≤ gradient.headI.temp := by
    rw [hhead]
    push_neg
    have hi17 : i < 17 := by
      have hlen : gradient.length = 17 := rfl
      omega
    exact lt_of_le_of_lt (hlow i hi17) h1
  have hno2 : ¬ gradient.getLastI.temp ≤ t := by
    rw [hlast]; exact not_le.mpr h3
  simp only [getTemperatureColor, getTemperatureColorWith]
  rw [if_neg hno1, if_neg hno2, findColor_gradient i hi t h1 h2]

/-- Every temperature strictly between the first and last stop is enclosed by
some adjacent pair of stops. -/
lemma exists_enclosing_pair (t : ℚ) (hlo : -10 < t) (hhi : t < 35) :
    ∃ i, i + 1 < gradient.length ∧ (stop i).temp < t ∧ t ≤ (stop (i + 1)).temp := by
  rcases le_or_lt t (-7.5) with h | h
  · exact ⟨0, by decide,
      by rw [show (stop 0).temp = -10 by decide]; linarith,
      by rw [show (stop 1).temp = -7.5 by decide]; linarith⟩
  rcases le_or_lt t (-5) with h | h
  · exact ⟨1, by decide,
      by rw [show (stop 1).temp = -7.5 by decide]; linarith,
      by rw [show (stop 2).temp = -5 by decide]; linarith⟩
  rcases le_or_lt t (-2.5) with h | h
  · exact ⟨2, by decide,
      by rw [show (stop 2).temp = -5 by decide]; linarith,
      by rw [show (stop 3).temp = -2.5 by decide]; linarith⟩
  rcases le_or_lt t (0) with h | h
  · exact ⟨3, by decide,
      by rw [show (stop 3).temp = -2.5 by decide]; linarith,
      by rw [show (stop 4).temp = 0 by decide]; linarith⟩
  rcases le_or_lt t (2.5) with h | h
  · exact ⟨4, by decide,
      by rw [show (stop 4).temp = 0 by decide]; linarith,
      by rw [show (stop 5).temp = 2.5 by decide]; linarith⟩
  rcases le_or_lt t (5) with h | h
  · exact ⟨5, by decide,
      by rw [show (stop 5).temp = 2.5 by decide]; linarith,
      by rw [show (stop 6).temp = 5 by decide]; linarith⟩
  rcases le_or_lt t (7.5) with h | h
  · exact ⟨6, by decide,
      by rw [show (stop 6).temp = 5 by decide]; linarith,
      by rw [show (stop 7).temp = 7.5 by decide]; linarith⟩
  rcases le_or_lt t (10) with h | h
  · exact ⟨7, by decide,
      by rw [show (stop 7).temp = 7.5 by decide]; linarith,
      by rw [show (stop 8).temp = 10 by decide]; linarith⟩
  rcases le_or_lt t (12.5) with h | h
  · exact ⟨8, by decide,
      by rw [show (stop 8).temp = 10 by decide]; linarith,
      by rw [show (stop 9).temp = 12.5 by decide]; linarith⟩
  rcases le_or_lt t (15) with h | h
  · exact ⟨9, by decide,
      by rw [show (stop 9).temp = 12.5 by decide]; linarith,
      by rw [show (stop 10).temp = 15 by decide]; linarith⟩
  rcases le_or_lt t (17.5) with h | h
  · exact ⟨10, by decide,
      by rw [show (stop 10).temp = 15 by decide]; linarith,
      by rw [show (stop 11).temp = 17.5 by decide]; linarith⟩
  rcases le_or_lt t (20) with h | h
  · exact ⟨11, by decide,
      by rw [show (stop 11).temp = 17.5 by decide]; linarith,
      by rw [show (stop 12).temp = 20 by decide]; linarith⟩
  rcases le_or_lt t (25) with h | h
  · exact ⟨12, by decide,
      by rw [show (stop 12).temp = 20 by decide]; linarith,
      by rw [show (stop 13).temp = 25 by decide]; linarith⟩
  rcases le_or_lt t (28) with h | h
  · exact ⟨13, by decide,
      by rw [show (stop 13).temp = 25 by decide]; linarith,
      by rw [show (stop 14).temp = 28 by decide]; linarith⟩
  rcases le_or_lt t (32) with h | h
  · exact ⟨14, by decide,
      by rw [show (stop 14).temp = 28 by decide]; linarith,
      by rw [show (stop 15).temp = 32 by decide]; linarith⟩
  exact ⟨15, by decide,
    by rw [show (stop 15).temp = 32 by decide]; linarith,
    by rw [show (stop 16).temp = 35 by decide]; linarith⟩

/-- C2: for every temperature `t` enclosed by an adjacent pair of stops
(`stops[i].temp ≤ t ≤ stops[i+1].temp`), `getTemperatureColor` returns, per
channel, `round(start.channel + factor * (end.channel - start.channel))` with
`factor = (t - start.temp) / (end.temp - start.temp)` for that pair (all
enclosing pairs give the same value, so in particular the unique one in the
strict interior); and for `t` exactly at any stop's breakpoint the result is
that stop's color exactly. -/
theorem colorFor_interpolates_adjacent_pair :
    (∀ i, i + 1 < gradient.length → ∀ t : ℚ,
        (stop i).temp ≤ t → t ≤ (stop (i + 1)).temp →
        getTemperatureColor (some t) =
          rgbaFromColor (interpStop (stop i) (stop (i + 1)) t)) ∧
    (∀ j, j < gradient.length →
        getTemperatureColor (some ((stop j).temp)) = rgbaFromColor (stop j).color) := by
  constructor
  · intro i hi t h1 h2
    have hi16 : i < 16 := by
      have hlen : gradient.length = 17 := rfl
      omega
    rcases eq_or_lt_of_le h1 with he | hlt
    · have hbl : ∀ j, j < 16 →
          getTemperatureColor (some ((stop j).temp)) =
            rgbaFromColor (interpStop (stop j) (stop (j + 1)) ((stop j).temp)) := by decide
      rw [← he]
      exact hbl i hi16
    · rcases lt_or_eq_of_le h2 with hlt2 | he2
      · have hub : ∀ j, j < 17 → (stop j).temp ≤ 35 := by decide
        exact getTemperatureColor_interior i hi t hlt h2
          (lt_of_lt_of_le hlt2 (hub (i + 1) (by omega)))
      · have hbh : ∀ j, j < 16 →
            getTemperatureColor (some ((stop (j + 1)).temp)) =
              rgbaFromColor (interpStop (stop j) (stop (j + 1)) ((stop (j + 1)).temp)) := by
          decide
        rw [he2]
        exact hbh i hi16
  · decide

/-- Witness for C2 at `i = 0`, `t = -9`. -/
theorem colorFor_interpolates_witness :
    getTemperatureColor (some (-9)) = rgbaFromColor (interpStop (stop 0) (stop 1) (-9)) :=
  colorFor_interpolates_adjacent_pair.1 0 (by decide) (-9) (by decide) (by decide)

/-- C4: temperatures at or below the first stop map to the first stop's
color, and temperatures at or above the last stop map to the last stop's
color (no extrapolation). -/
theorem colorFor_clamps_at_boundaries :
    ∀ t : ℚ,
      (t ≤ gradient.headI.temp →
        getTemperatureColor (some t) = rgbaFromColor gradient.headI.color) ∧
      (gradient.getLastI.temp ≤ t →
        getTemperatureColor (some t) = rgbaFromColor gradient.getLastI.color) := by
  intro t
  constructor
  · intro h
    simp only [getTemperatureColor, getTemperatureColorWith]
    rw [if_pos h]
  · intro h
    have hh : gradient.headI.temp = -10 := by decide
    have hl : gradient.getLastI.temp = 35 := by decide
    have hno : ¬ t ≤ gradient.headI.temp := by
      rw [hh]; rw [hl] at h; linarith
    simp only [getTemperatureColor, getTemperatureColorWith]
    rw [if_neg hno, if_pos h]

/-- Witness for C4 at `t = -20` and `t = 100`. -/
theorem colorFor_clamps_witness :
    getTemperatureColor (some (-20)) = rgbaFromColor gradient.headI.color ∧
      getTemperatureColor (some 100) = rgbaFromColor gradient.getLastI.color :=
  ⟨(colorFor_clamps_at_boundaries (-20)).1 (by decide),
   (colorFor_clamps_at_boundaries 100).2 (by decide)⟩

/-- C10: for every non-absent temperature, `getTemperatureColor` returns from
a clamp branch or from the interpolation loop: whenever neither clamp guard
holds, the scan finds an enclosing adjacent pair, so the trailing neutral-gray
fallback is unreachable. -/
theorem colorFor_fallback_unreachable :
    ∀ t : ℚ,
      t ≤ gradient.headI.temp ∨ gradient.getLastI.temp ≤ t ∨
        (findColor gradient t).isSome = true := by
  intro t
  rcases le_or_lt t gradient.headI.temp with h | h
  · exact Or.inl h
  rcases le_or_lt gradient.getLastI.temp t with h' | h'
  · exact Or.inr (Or.inl h')
  refine Or.inr (Or.inr ?_)
  have hh : gradient.headI.temp = -10 := by decide
  have hl : gradient.getLastI.temp = 35 := by decide
  obtain ⟨i, hi, ha, hb⟩ := exists_enclosing_pair t (hh ▸ h) (hl ▸ h')
  rw [findColor_gradient i hi t ha hb]
  rfl

/-- C5 counterexample: `colorFor(2.5)` does not return RGB(247, 251, 204),
the claimed midpoint of the 0°C and 5°C stops. -/
theorem colorFor_midpoint_counterexample :
    getTemperatureColor (some 2.5) ≠ rgbaFromColor (247, 251, 204) := by decide

/-- C5 (amended): the gradient table contains a stop at 2.5°C with color
RGB(255, 255, 224) between the 0°C and 5°C stops, so `colorFor(2.5)` returns
exactly that stop's color RGB(255, 255, 224). -/
theorem colorFor_at_example_stop :
    getTemperatureColor (some 2.5) = rgbaFromColor (255, 255, 224) := by decide

/-- C8: an absent temperature always yields the fixed neutral-gray sentinel
rgba(128, 128, 128, 0.3), regardless of the gradient table's contents, in
both implementations. -/
theorem colorFor_absent_neutral_gray :
    (∀ table : List GradientStop,
        getTemperatureColorWith table none = ⟨128, 128, 128, 0.3⟩) ∧
      SanJose.getTemperatureColor none = ⟨128, 128, 128, 0.3⟩ :=
  ⟨fun _ => rfl, rfl⟩

/-- C9: the San José 4-bucket implementation and the gradient-table
implementation disagree on some non-absent temperature (here 20°C). -/
theorem gradient_implementations_disagree :
    ∃ t : ℚ, SanJose.getTemperatureColor (some t) ≠ getTemperatureColor (some t) :=
  ⟨20, by decide⟩

/-- JavaScript rounding is monotone. -/
lemma jsRound_mono {x y : ℚ} (h : x ≤ y) : jsRound x ≤ jsRound y := by
  unfold jsRound
  exact Int.floor_le_floor (by linarith)

/-- A rounded linear interpolation of one channel stays between the two
endpoint channel values (which rounding fixes). -/
lemma chanBetween (a b s e t : ℚ) (hse : s < e) (h1 : s ≤ t) (h2 : t ≤ e)
    (ha : ((jsRound a : ℤ) : ℚ) = a) (hb : ((jsRound b : ℤ) : ℚ) = b) :
    channelBetween a b ((jsRound (a + (t - s) / (e - s) * (b - a)) : ℤ) : ℚ) := by
  have hf0 : 0 ≤ (t - s) / (e - s) := div_nonneg (by linarith) (by linarith)
  have hf1 : (t - s) / (e - s) ≤ 1 := (div_le_one (by linarith)).mpr (by linarith)
  set f := (t - s) / (e - s) with hf
  rcases le_total a b with hab | hab
  · have hd : (0 : ℚ) ≤ b - a := by linarith
    constructor
    · rw [min_eq_left hab]
      calc a = ((jsRound a : ℤ) : ℚ) := ha.symm
        _ ≤ _ := by
          exact_mod_cast jsRound_mono (by nlinarith [mul_nonneg hf0 hd])
    · rw [max_eq_right hab]
      calc ((jsRound (a + f * (b - a)) : ℤ) : ℚ)
          ≤ ((jsRound b : ℤ) : ℚ) := by
            exact_mod_cast jsRound_mono
              (by nlinarith [mul_nonneg (by linarith : (0 : ℚ) ≤ 1 - f) hd])
        _ = b := hb
  · have hd : b - a ≤ 0 := by linarith
    constructor
    · rw [min_eq_right hab]
      calc b = ((jsRound b : ℤ) : ℚ) := hb.symm
        _ ≤ _ := by
          exact_mod_cast jsRound_mono
            (by nlinarith [mul_nonneg (by linarith : (0 : ℚ) ≤ 1 - f) (by linarith : (0 : ℚ) ≤ a - b)])
    · rw [max_eq_left hab]
      calc ((jsRound (a + f * (b - a)) : ℤ) : ℚ)
          ≤ ((jsRound a : ℤ) : ℚ) := by
            exact_mod_cast jsRound_mono (by nlinarith [mul_nonpos_of_nonneg_of_nonpos hf0 hd])
        _ = a := ha

/-- The rounded interpolation of one channel is non-decreasing in the
temperature when the end stop's channel is at least the start stop's. -/
lemma chanMono (a b s e t t' : ℚ) (hse : s < e) (ht : t ≤ t') (hab : a ≤ b) :
    ((jsRound (a + (t - s) / (e - s) * (b - a)) : ℤ) : ℚ) ≤
      ((jsRound (a + (t' - s) / (e - s) * (b - a)) : ℤ) : ℚ) := by
  have hd : (t - s) / (e - s) ≤ (t' - s) / (e - s) :=
    (div_le_div_iff_of_pos_right (by linarith)).mpr (by linarith)
  exact_mod_cast jsRound_mono
    (by nlinarith [mul_le_mul_of_nonneg_right hd (by linarith : (0 : ℚ) ≤ b - a)])

/-- The rounded interpolation of one channel is non-increasing in the
temperature when the end stop's channel is at most the start stop's. -/
lemma chanAnti (a b s e t t' : ℚ) (hse : s < e) (ht : t ≤ t') (hab : b ≤ a) :
    ((jsRound (a + (t' - s) / (e - s) * (b - a)) : ℤ) : ℚ) ≤
      ((jsRound (a + (t - s) / (e - s) * (b - a)) : ℤ) : ℚ) := by
  have hd : (t - s) / (e - s) ≤ (t' - s) / (e - s) :=
    (div_le_div_iff_of_pos_right (by linarith)).mpr (by linarith)
  exact_mod_cast jsRound_mono
    (by nlinarith [mul_le_mul_of_nonpos_right hd (by linarith : b - a ≤ 0)])

/-- C6: for temperatures strictly between two adjacent stops, every RGB
channel of the returned color lies between the corresponding channels of the
two stops (a per-channel convex combination), and on that interval each
channel moves monotonically toward the end stop's channel value. -/
theorem colorFor_convex_monotone :
    ∀ i, i + 1 < gradient.length → ∀ t t' : ℚ,
      (stop i).temp < t → t ≤ t' → t' < (stop (i + 1)).temp →
      ((channelBetween (stop i).color.1 (stop (i + 1)).color.1
          (getTemperatureColor (some t)).r ∧
        channelBetween (stop i).color.2.1 (stop (i + 1)).color.2.1
          (getTemperatureColor (some t)).g ∧
        channelBetween (stop i).color.2.2 (stop (i + 1)).color.2.2
          (getTemperatureColor (some t)).b) ∧
       (((stop i).color.1 ≤ (stop (i + 1)).color.1 →
           (getTemperatureColor (some t)).r ≤ (getTemperatureColor (some t')).r) ∧
        ((stop (i + 1)).color.1 ≤ (stop i).color.1 →
           (getTemperatureColor (some t')).r ≤ (getTemperatureColor (some t)).r) ∧
        ((stop i).color.2.1 ≤ (stop (i + 1)).color.2.1 →
           (getTemperatureColor (some t)).g ≤ (getTemperatureColor (some t')).g) ∧
        ((stop (i + 1)).color.2.1 ≤ (stop i).color.2.1 →
           (getTemperatureColor (some t')).g ≤ (getTemperatureColor (some t)).g) ∧
        ((stop i).color.2.2 ≤ (stop (i + 1)).color.2.2 →
           (getTemperatureColor (some t)).b ≤ (getTemperatureColor (some t')).b) ∧
        ((stop (i + 1)).color.2.2 ≤ (stop i).color.2.2 →
           (getTemperatureColor (some t')).b ≤ (getTemperatureColor (some t)).b))) := by
  intro i hi t t' h1 ht h2
  have hi16 : i < 16 := by
    have hlen : gradient.length = 17 := rfl
    omega
  have hub : ∀ j, j < 17 → (stop j).temp ≤ 35 := by decide
  have hfix : ∀ j, j < 17 →
      ((jsRound (stop j).color.1 : ℤ) : ℚ) = (stop j).color.1 ∧
      ((jsRound (stop j).color.2.1 : ℤ) : ℚ) = (stop j).color.2.1 ∧
      ((jsRound (stop j).color.2.2 : ℤ) : ℚ) = (stop j).color.2.2 := by decide
  have h1' : (stop i).temp < t' := lt_of_lt_of_le h1 ht
  have h2t : t < (stop (i + 1)).temp := lt_of_le_of_lt ht h2
  have hse : (stop i).temp < (stop (i + 1)).temp := lt_trans h1 h2t
  have h35 : (stop (i + 1)).temp ≤ 35 := hub (i + 1) (by omega)
  have e1 : getTemperatureColor (some t) =
      rgbaFromColor (interpStop (stop i) (stop (i + 1)) t) :=
    getTemperatureColor_interior i hi t h1 (le_of_lt h2t)
      (lt_of_lt_of_le h2t h35)
  have e2 : getTemperatureColor (some t') =
      rgbaFromColor (interpStop (stop i) (stop (i + 1)) t') :=
    getTemperatureColor_interior i hi t' h1' (le_of_lt h2)
      (lt_of_lt_of_le h2 h35)
  obtain ⟨ha1, ha2, ha3⟩ := hfix i (by omega)
  obtain ⟨hb1, hb2, hb3⟩ := hfix (i + 1) (by omega)
  rw [e1, e2]
  simp only [rgbaFromColor, interpStop]
  exact ⟨⟨chanBetween _ _ _ _ _ hse (le_of_lt h1) (le_of_lt h2t) ha1 hb1,
          chanBetween _ _ _ _ _ hse (le_of_lt h1) (le_of_lt h2t) ha2 hb2,
          chanBetween _ _ _ _ _ hse (le_of_lt h1) (le_of_lt h2t) ha3 hb3⟩,
         fun hab => chanMono _ _ _ _ _ _ hse ht hab,
         fun hab => chanAnti _ _ _ _ _ _ hse ht hab,
         fun hab => chanMono _ _ _ _ _ _ hse ht hab,
         fun hab => chanAnti _ _ _ _ _ _ hse ht hab,
         fun hab => chanMono _ _ _ _ _ _ hse ht hab,
         fun hab => chanAnti _ _ _ _ _ _ hse ht hab⟩

/-- Witness for C6 at `i = 0`, `t = -9`, `t' = -8`. -/
theorem colorFor_convex_monotone_witness :
    channelBetween (stop 0).color.1 (stop 1).color.1 (getTemperatureColor (some (-9))).r :=
  (colorFor_convex_monotone 0 (by decide) (-9) (-8) (by decide) (by norm_num) (by decide)).1.1

/-- The nested generation loops produce exactly the zones `zoneAt` describes
at flat indices `0..47`, in row-major order. -/
lemma generateZones_eq_map (a b : ℚ) :
    generateZones a b = (List.range 48).map (zoneAt a b) := rfl

/-- C3: `generateZones` yields exactly 48 zones with identifiers
`zone1..zone48` assigned sequentially in row-major order; each zone is the
4-corner rectangle listed in the winding order min-lat/min-lon,
min-lat/max-lon, max-lat/max-lon, max-lat/min-lon; every zone starts with
temperature absent; and zone1's first (minimum) corner is the origin. -/
theorem generateZones_grid_shape :
    ∀ a b : ℚ,
      (generateZones a b).length = 48 ∧
      (∀ k, k < 48 →
        (generateZones a b).get? k = some
          { id := "zone" ++ toString (k + 1),
            coordinates :=
              [⟨a + ((k / 6 : ℕ) : ℚ) * latStep, b + ((k % 6 : ℕ) : ℚ) * lonStep⟩,
               ⟨a + ((k / 6 : ℕ) : ℚ) * latStep, b + (((k % 6 : ℕ) : ℚ) + 1) * lonStep⟩,
               ⟨a + (((k / 6 : ℕ) : ℚ) + 1) * latStep, b + (((k % 6 : ℕ) : ℚ) + 1) * lonStep⟩,
               ⟨a + (((k / 6 : ℕ) : ℚ) + 1) * latStep, b + ((k % 6 : ℕ) : ℚ) * lonStep⟩],
            temperature := none }) ∧
      (∃ z, (generateZones a b).get? 0 = some z ∧ z.coordinates.get? 0 = some ⟨a, b⟩) := by
  intro a b
  refine ⟨?_, ?_, ?_⟩
  · rw [generateZones_eq_map]
    simp
  · intro k hk
    rw [generateZones_eq_map, List.get?_map, List.get?_range hk]
    rfl
  · refine ⟨zoneAt a b 0, ?_, ?_⟩
    · rw [generateZones_eq_map, List.get?_map, List.get?_range (by norm_num : (0 : ℕ) < 48)]
      rfl
    · show some _ = some _
      congr 1
      show Coordinate.mk (a + ((0 : ℕ) : ℚ) * latStep) (b + ((0 : ℕ) : ℚ) * lonStep) = _
      norm_num

/-- Witness for C3: the zone at index 7 of the grid generated at the
origin. -/
theorem generateZones_grid_shape_witness :
    (generateZones 0 0).get? 7 = some
      { id := "zone8",
        coordinates := [⟨0.08, 0.1⟩, ⟨0.08, 0.2⟩, ⟨0.16, 0.2⟩, ⟨0.16, 0.1⟩],
        temperature := none } := by
  rw [(generateZones_grid_shape 0 0).2.1 7 (by norm_num)]
  decide

/-- `computeCentroid` of an explicit 4-point list is the arithmetic mean of
the four points. -/
lemma centroid_rect (p0 p1 p2 p3 : Coordinate) :
    computeCentroid [p0, p1, p2, p3] =
      ⟨(p0.latitude + p1.latitude + p2.latitude + p3.latitude) / 4,
       (p0.longitude + p1.longitude + p2.longitude + p3.longitude) / 4⟩ := by
  simp only [computeCentroid, List.foldl, List.length, Coordinate.mk.injEq]
  constructor <;> (push_cast; ring)

/-- C7: for every generated zone, `computeCentroid` returns exactly the
arithmetic mean of the zone's four corner coordinates, which equals the
rectangle's geometric center `((latMin+latMax)/2, (lonMin+lonMax)/2)`. -/
theorem centroid_mean_of_corners :
    ∀ a b : ℚ, ∀ k, k < 48 → ∀ z, (generateZones a b).get? k = some z →
      (∀ p0 p1 p2 p3 : Coordinate, z.coordinates = [p0, p1, p2, p3] →
        computeCentroid z.coordinates =
          ⟨(p0.latitude + p1.latitude + p2.latitude + p3.latitude) / 4,
           (p0.longitude + p1.longitude + p2.longitude + p3.longitude) / 4⟩) ∧
      computeCentroid z.coordinates =
        ⟨((a + ((k / 6 : ℕ) : ℚ) * latStep) + (a + (((k / 6 : ℕ) : ℚ) + 1) * latStep)) / 2,
         ((b + ((k % 6 : ℕ) : ℚ) * lonStep) + (b + (((k % 6 : ℕ) : ℚ) + 1) * lonStep)) / 2⟩ := by
  intro a b k hk z hz
  rw [generateZones_eq_map, List.get?_map, List.get?_range hk] at hz
  have hz' : z = zoneAt a b k := by
    injection hz with h
    exact h.symm
  subst hz'
  constructor
  · intro p0 p1 p2 p3 hco
    rw [hco, centroid_rect]
  · show computeCentroid [_, _, _, _] = _
    rw [centroid_rect]
    simp only [Coordinate.mk.injEq, numberOfColumns]
    constructor <;> (push_cast; ring)

/-- Witness for C7 on the first zone of the grid generated at the
origin. -/
theorem centroid_mean_witness :
    computeCentroid (zoneAt 0 0 0).coordinates = ⟨0.04, 0.05⟩ := by
  rw [(centroid_mean_of_corners 0 0 0 (by norm_num) (zoneAt 0 0 0) rfl).2]
  decide

/-- If any per-zone promise rejects, the joined batch rejects. -/
lemma collectZones_error (f : Zone → Except String Zone) :
    ∀ zs : List Zone, (∃ z ∈ zs, ∃ e, f z = Except.error e) →
      ∃ e, collectZones f zs = Except.error e
  | [], h => by
      obtain ⟨z, hz, -⟩ := h
      exact absurd hz (List.not_mem_nil z)
  | z :: rest, h => by
      obtain ⟨w, hw, e, he⟩ := h
      rcases List.mem_cons.mp hw with rfl | hmem
      · exact ⟨e, by simp [collectZones, he]⟩
      · cases hfz : f z with
        | error e' => exact ⟨e', by simp [collectZones, hfz]⟩
        | ok z2 =>
          obtain ⟨e', he'⟩ := collectZones_error f rest ⟨w, hmem, e, he⟩
          exact ⟨e', by simp [collectZones, hfz, he']⟩

/-- C1: if any per-zone temperature fetch of a refresh cycle fails, the
published zone sequence is left exactly as it was before the cycle (so every
zone keeps its previous temperature) and an error status is reported instead
of a partial update. -/
theorem batch_refresh_all_or_nothing :
    ∀ (fetch : Coordinate → Except String ℚ) (zonesToUpdate : List Zone)
      (state : ComponentState),
      (∃ z ∈ zonesToUpdate, ∃ e,
          fetch (computeCentroid z.coordinates) = Except.error e) →
      (fetchZoneTemperatures fetch zonesToUpdate state).zones = state.zones ∧
        ((fetchZoneTemperatures fetch zonesToUpdate state).error).isSome = true := by
  intro fetch zonesToUpdate state h
  obtain ⟨e, he⟩ := collectZones_error
    (fun zone =>
      (fetch (computeCentroid zone.coordinates)).map
        fun temp => { zone with temperature := some temp })
    zonesToUpdate
    (by
      obtain ⟨z, hz, e, hfe⟩ := h
      exact ⟨z, hz, e, by simp [hfe, Except.map]⟩)
  simp [fetchZoneTemperatures, he]

/-- Witness for C1: one failing fetch over a singleton zone list leaves the
previously published grid untouched and sets the error status. -/
theorem batch_refresh_witness :
    (fetchZoneTemperatures (fun _ => Except.error "Failed to fetch temperature")
        [zoneAt 0 0 0] ⟨generateZones 1 2, false, none⟩).zones = generateZones 1 2 ∧
      ((fetchZoneTemperatures (fun _ => Except.error "Failed to fetch temperature")
        [zoneAt 0 0 0] ⟨generateZones 1 2, false, none⟩).error).isSome = true :=
  batch_refresh_all_or_nothing _ _ _
    ⟨zoneAt 0 0 0, by simp, "Failed to fetch temperature", rfl⟩

end DynamicGeofencing

end EasyWeather
